import Mathlib

/-!
Verification of the fend linting/autofix engine (src/src/fend) against its
specification.  The Python sources are shallowly embedded: pure functions
become Lean functions, Python exceptions become `Except PyErr`, the file
system touched by the fix engine becomes an explicit association list from
path to content, and potential non-termination of `while True` loops is
made observable with a fuel parameter (`none` = still looping when the fuel
runs out, for every fuel).
-/

/-- Python exceptions that the embedded code can raise. -/
inductive PyErr where
  | attributeError
  | typeError
  | assertionError
  | nameError
  | indexError
  | ioError
deriving DecidableEq

/-- Whitespace characters stripped by Python's `str.rstrip()` / `str.lstrip()`
(the ASCII subset; none of the embedded texts contain other Unicode spaces). -/
def pyIsSpace (c : Char) : Bool :=
  c = ' ' || c = '\t' || c = '\n' || c = '\x0d' || c = '\x0b' || c = '\x0c'

/-- Python `str.rstrip()`: remove trailing whitespace. -/
def pyRstrip (s : String) : String :=
  String.mk ((s.data.reverse.dropWhile pyIsSpace).reverse)

/-- Python `str.lstrip()`: remove leading whitespace. -/
def pyLstrip (s : String) : String :=
  String.mk (s.data.dropWhile pyIsSpace)

/-- Python `str.startswith(' ')`: does the string begin with a space? -/
def pyStartsWithSpace (s : String) : Bool :=
  match s.data with
  | c :: _ => c = ' '
  | [] => false

/-- Python `s[-1]`: last character of a string; `IndexError` on the empty string. -/
def pyLastChar (s : String) : Except PyErr Char :=
  match s.data.getLast? with
  | none => Except.error PyErr.indexError
  | some c => Except.ok c

/-- Python `s[:n]` on a string (code points). -/
def pyTake (s : String) (n : Nat) : String :=
  String.mk (s.data.take n)

/-- Python `s[n:]` on a string (code points). -/
def pyDrop (s : String) (n : Nat) : String :=
  String.mk (s.data.drop n)

/-- Helper for `pySplitlines`: walk the character list, keeping line ends.
Handles the line boundaries occurring in this code base: `\n`, `\r\n`, `\r`. -/
def splitLinesAux : List Char → List Char → List (List Char)
  | [], acc => if acc = [] then [] else [acc.reverse]
  | '\x0d' :: '\n' :: rest, acc => (acc.reverse ++ ['\x0d', '\n']) :: splitLinesAux rest []
  | '\x0d' :: rest, acc => (acc.reverse ++ ['\x0d']) :: splitLinesAux rest []
  | '\n' :: rest, acc => (acc.reverse ++ ['\n']) :: splitLinesAux rest []
  | c :: rest, acc => splitLinesAux rest (c :: acc)

/-- Python `str.splitlines(keepends=True)`. -/
def pySplitlines (s : String) : List String :=
  (splitLinesAux s.data []).map String.mk

/-- Python list slice assignment `l[i:j] = r` (non-negative indices): the
start index is clamped to the list length, the stop index is clamped and
never lies before the start, and the slice is replaced by `r`. -/
def pySliceAssign {α : Type} (l : List α) (i j : Nat) (r : List α) : List α :=
  l.take (min i l.length) ++ r ++ l.drop (max (min j l.length) (min i l.length))

/-- The file system the fix engine reads and writes: an association list
from path to whole-file content. -/
abbrev FS := List (String × String)

/-- `Path.read_text` / `File.__init__`'s read: look a path up in the file system. -/
def fsRead (fs : FS) (path : String) : Option String :=
  (fs.find? (fun e => e.1 == path)).map (fun e => e.2)

/-- `Path.write_text`: replace (or create) the content stored at `path`. -/
def fsWrite (fs : FS) (path : String) (text : String) : FS :=
  if fs.any (fun e => e.1 == path) then
    fs.map (fun e => if e.1 == path then (path, text) else e)
  else fs ++ [(path, text)]

/-- `fend.File` (src/src/fend/__init__.py): a path plus the full content,
read once at construction time (`text` never refreshes after a write). -/
structure File where
  path : String
  text : String
deriving DecidableEq

/-- `File.lines`: the text split into lines, keeping the line endings. -/
def File.lines (f : File) : List String :=
  pySplitlines f.text

/-- `File.get_line`: 1-indexed line accessor; `IndexError` out of range. -/
def File.get_line (f : File) (line_no : Nat) : Except PyErr String :=
  match f.lines.get? (line_no - 1) with
  | none => Except.error PyErr.indexError
  | some l => Except.ok l

/-- `fend.Project`: the ordered list of files under check. -/
structure Project where
  files : List File
deriving DecidableEq

/-- `fend.Project` defines the attribute `files` and the constructors
`from_file_path` / `from_files` / `from_text` only; it has no `get_files`
method, so the attribute lookup `project.get_files` raises `AttributeError`
on every instance.  (The `Project` class in src/src/fend/stock/general.py,
which does define `get_files`, is a distinct superseded class that is never
instantiated by the package.) -/
def Project.get_files? (_ : Project) : Option (List File) :=
  none

/-- `Project.from_text`: one synthetic file backed by a fake path. -/
def Project.from_text (text : String) : Project :=
  ⟨[⟨"/tmp/fake/path", text⟩]⟩

/-- `Project.from_file_path`: read the file once from the file system
(`File.__init__` calls `Path.read_text`, which fails if the path is absent). -/
def Project.from_file_path (fs : FS) (path : String) : Except PyErr Project :=
  match fsRead fs path with
  | none => Except.error PyErr.ioError
  | some text => Except.ok ⟨[⟨path, text⟩]⟩

/-- `fend.Location`: a 1-indexed file/line/column position. -/
structure Location where
  file_path : String
  line : Nat
  column : Option Nat
deriving DecidableEq

/-- `Location.__post_init__` (identical asserts in fend/__init__.py and in
the superseded copy in stock/general.py): `line >= 1`, `column >= 1` when
present, and a present `line` forces a present `column`.  Construction of a
`Location` runs these asserts, so an invalid position raises
`AssertionError` instead of producing a value. -/
def mkLocation (file_path : String) (line : Nat) (column : Option Nat) :
    Except PyErr Location :=
  if line < 1 then Except.error PyErr.assertionError
  else
    match column with
    | none => Except.error PyErr.assertionError
    | some c =>
      if c < 1 then Except.error PyErr.assertionError
      else Except.ok ⟨file_path, line, some c⟩

/-- `fend.Violation`: tags, human-readable summary, location, and the
optional `before`/`after` fix lines (`none` = not auto-fixable). -/
structure Violation where
  tags : List String
  summary : String
  location : Location
  before : Option (List String)
  after : Option (List String)
deriving DecidableEq

/-- Python `assert all(line[-1] == '\n' for line in lines)`: checks the
lines in order; an empty line raises `IndexError` from `line[-1]`, a line
not ending in a newline raises `AssertionError`. -/
def assertLinesEndNewline (lines : List String) : Except PyErr Unit :=
  lines.foldlM
    (fun _ line => do
      let c ← pyLastChar line
      if c = '\n' then pure () else Except.error PyErr.assertionError)
    ()

/-- `fend.Violation.__post_init__` run at construction: each of `before`
and `after`, when present, must consist of newline-terminated lines.  (No
check relates the presence of `before` to the presence of `after`.) -/
def mkViolation (tags : List String) (summary : String) (location : Location)
    (before after : Option (List String)) : Except PyErr Violation := do
  (match before with
   | none => pure ()
   | some b => assertLinesEndNewline b)
  (match after with
   | none => pure ()
   | some a => assertLinesEndNewline a)
  pure ⟨tags, summary, location, before, after⟩

/-- The superseded `Violation` dataclass of src/src/fend/stock/general.py:
it carries the reporting pattern object itself (identified here by its
stateless `id`) instead of tags and a summary, and its `before`/`after`
lines are mandatory. -/
structure GViolation where
  pattern : String
  location : Location
  before : List String
  after : List String
deriving DecidableEq

/-- `general.Violation.__post_init__`: both line lists must be
newline-terminated. -/
def mkGViolation (pattern : String) (location : Location)
    (before after : List String) : Except PyErr GViolation := do
  assertLinesEndNewline before
  assertLinesEndNewline after
  pure ⟨pattern, location, before, after⟩

/-- Per-file body of `TrailingWhitespace.check` (src/src/fend/stock/general.py,
lines 91-99): for each 1-indexed line whose `rstrip` plus a newline differs
from the line itself, construct (running the dataclass asserts) one
`general.Violation` with `before=[line]` and `after=[stripped]`. -/
def trailingWhitespaceFileViolations (file : File) : Except PyErr (List GViolation) :=
  file.lines.enum.foldlM
    (fun acc li => do
      let line := li.2
      let after_line := pyRstrip line ++ "\n"
      if after_line ≠ line then do
        let location ← mkLocation file.path (li.1 + 1) (some 1)
        let v ← mkGViolation "trailing-whitespace" location [line] [after_line]
        pure (acc ++ [v])
      else
        pure acc)
    []

/-- The file loop of `TrailingWhitespace.check` (general.py lines 89-100):
the `violations` list is re-initialised inside the per-file loop and the
single `return violations` sits outside it, so only the last file's
violations are returned, and with zero files the name `violations` is
unbound (`NameError`). -/
def trailingWhitespaceCheckFiles (files : List File) : Except PyErr (List GViolation) := do
  let last ← files.foldlM
    (fun (_ : Option (List GViolation)) file => do
      let vs ← trailingWhitespaceFileViolations file
      pure (some vs))
    none
  match last with
  | none => Except.error PyErr.nameError
  | some vs => pure vs

/-- A `general.Violation` as seen by the fix engine, which reads only
`location`, `before` and `after` (never `tags` or `summary`, which the
superseded dataclass lacks; the placeholder fields here are never
inspected by any embedded code or theorem). -/
def GViolation.asViolation (gv : GViolation) : Violation :=
  ⟨[gv.pattern], "", gv.location, some gv.before, some gv.after⟩

/-- `TrailingWhitespace.check` as invoked by the package (general.py line
89): the method first evaluates `project.get_files()`, and `fend.Project`
has no such attribute, so the call raises `AttributeError` before any line
is examined. -/
def trailingWhitespaceCheck (project : Project) : Except PyErr (List Violation) := do
  let files ← match project.get_files? with
    | none => Except.error PyErr.attributeError
    | some fs => pure fs
  let gvs ← trailingWhitespaceCheckFiles files
  pure (gvs.map GViolation.asViolation)

/-- `_required_targets` (src/src/fend/stock/make.py line 74); the source is
a Python set literal, iterated in an unspecified order that this list fixes
to the literal order.  No theorem depends on the order. -/
def requiredTargetsList : List String :=
  ["build", "lint", "test", "check", "clean"]

/-- `_Makefile.__init__` as called from `RequiredTargets.check` (make.py
line 97): the constructor receives `file.path` — a `pathlib.Path`, not a
`File` — and `_parse_targets` then evaluates `self._file.text`; `Path`
defines no `text` attribute, so every construction raises
`AttributeError`. -/
def makefileTargetsOfPath (_path : String) : Except PyErr (List String) :=
  Except.error PyErr.attributeError

/-- `RequiredTargets.check` (make.py lines 93-110): evaluates
`project.get_files()` (absent from `fend.Project`, hence `AttributeError`);
were files produced, each would be turned into a `_Makefile` (which itself
raises, see `makefileTargetsOfPath`) and every required target missing from
its target set would yield a non-fixable violation at line 1, column 1. -/
def requiredTargetsCheck (project : Project) : Except PyErr (List Violation) := do
  let files ← match project.get_files? with
    | none => Except.error PyErr.attributeError
    | some fs => pure fs
  files.foldlM
    (fun acc file => do
      let targets ← makefileTargetsOfPath file.path
      requiredTargetsList.foldlM
        (fun acc2 required_target => do
          if targets.contains required_target then
            pure acc2
          else do
            let location ← mkLocation file.path 1 (some 1)
            let v ← mkViolation ["make/missing-required-target"]
              ("missing required target in Makefile: " ++ required_target)
              location none none
            pure (acc2 ++ [v]))
        acc)
    []

/-- A node of the external tree-sitter parse tree, exposing exactly the
capabilities the patterns consume: `type`, `children`, `start_point` /
`end_point` (0-indexed row/column pairs), and the source `text` slice. -/
inductive Node where
  | mk (type : String) (start_point end_point : Nat × Nat) (text : String)
      (children : List Node)

def Node.type : Node → String
  | .mk t _ _ _ _ => t

def Node.start_point : Node → Nat × Nat
  | .mk _ s _ _ _ => s

def Node.end_point : Node → Nat × Nat
  | .mk _ _ e _ _ => e

def Node.text : Node → String
  | .mk _ _ _ tx _ => tx

def Node.children : Node → List Node
  | .mk _ _ _ _ cs => cs

mutual

/-- `_find_nodes_by_type` (make.py lines 14-24): depth-first pre-order
collection of all descendants (the node itself included) of a given type. -/
def findNodesByType (type : String) : Node → List Node
  | .mk t s e tx cs =>
    (if t = type then [Node.mk t s e tx cs] else []) ++ findNodesInForest type cs

/-- The child loop of `_find_nodes_by_type`, in child order. -/
def findNodesInForest (type : String) : List Node → List Node
  | [] => []
  | c :: cs => findNodesByType type c ++ findNodesInForest type cs

end

/-- Modelled from the spec: the Make-syntax parser is an external
collaborator consumed through the node contract of §6 (`type`, `children`,
`start_point`/`end_point` 0-indexed, `text`), not part of this repository's
sources.  This is the tree it deterministically produces for the text
`"x := $(call function, one)\n"`, the input pinned by the repository's own
test suite (test_make.py, `test_extra_spaces`): one `variable_assignment`
holding one `function_call` whose typed descendants of type `argument` are
`"function"` (columns 12-19) and `" one"` (columns 21-24, leading space
kept, as `test_extracting_arguments` requires). -/
def makeCallTree1 : Node :=
  Node.mk "makefile" (0, 0) (1, 0) "x := $(call function, one)\n"
    [Node.mk "variable_assignment" (0, 0) (0, 26) "x := $(call function, one)"
      [Node.mk "word" (0, 0) (0, 1) "x" [],
       Node.mk ":=" (0, 2) (0, 4) ":=" [],
       Node.mk "function_call" (0, 5) (0, 26) "$(call function, one)"
         [Node.mk "argument" (0, 12) (0, 20) "function" [],
          Node.mk "argument" (0, 21) (0, 25) " one" []]]]

/-- Modelled from the spec: `Parser.parse` of the external collaborator,
defined at the single input any theorem below evaluates it on; every other
text is mapped to a childless root, and no statement relies on that
default. -/
def parseMake (text : String) : Node :=
  if text = "x := $(call function, one)\n" then makeCallTree1
  else Node.mk "makefile" (0, 0) (0, 0) text []

/-- `_extract_call_nodes` (make.py lines 54-59): parse the text and collect
every `function_call` node. -/
def extractCallNodes (lines : String) : List Node :=
  findNodesByType "function_call" (parseMake lines)

/-- `SuperfolousSpaceInCall.check` (make.py lines 129-163): for every
`argument` descendant of every `function_call` whose text starts with a
space, report a violation at the argument's 1-indexed start position; when
the argument sits on a single line the fix replaces that line with the
argument's leading whitespace stripped in place, otherwise the violation is
non-fixable (`before = after = None`). -/
def superfolousSpaceInCallCheck (project : Project) : Except PyErr (List Violation) :=
  project.files.foldlM
    (fun acc file =>
      (extractCallNodes file.text).foldlM
        (fun acc2 call =>
          (findNodesByType "argument" call).foldlM
            (fun acc3 argument => do
              let text := argument.text
              if ¬ pyStartsWithSpace text then
                pure acc3
              else do
                let line_no := argument.start_point.1 + 1
                let column_no := argument.start_point.2 + 1
                let ba ←
                  if argument.start_point.1 = argument.end_point.1 then do
                    let before_line ← file.get_line line_no
                    pure (some [before_line],
                      some [pyTake before_line argument.start_point.2 ++
                        pyLstrip text ++ pyDrop before_line argument.end_point.2])
                  else
                    pure ((none : Option (List String)), (none : Option (List String)))
                let location ← mkLocation file.path line_no (some column_no)
                let v ← mkViolation ["make/superfluous-space-in-call"]
                  "function call includes superfluous space" location ba.1 ba.2
                pure (acc3 ++ [v]))
            acc2)
        acc)
    []

/-- The pattern capability consumed by the engine: a stateless id plus
`check`. -/
structure Pattern where
  id : String
  check : Project → Except PyErr (List Violation)

/-- `Pattern.validate` (identical assert in fend/__init__.py and in the
superseded base class of general.py): the id must contain no space. -/
def Pattern.validate (p : Pattern) : Except PyErr Unit :=
  if p.id.data.contains ' ' then Except.error PyErr.assertionError
  else Except.ok ()

/-- A pattern class in a rule pack: the class-level `id` used for the
enable filter, and instantiation (`pattern()`). -/
structure PatternClass where
  id : String
  instantiate : Pattern

/-- The `TrailingWhitespace` class of stock/general.py. -/
def TrailingWhitespace : PatternClass :=
  ⟨"trailing-whitespace", ⟨"trailing-whitespace", trailingWhitespaceCheck⟩⟩

/-- The `RequiredTargets` class of stock/make.py. -/
def RequiredTargets : PatternClass :=
  ⟨"make/missing-required-target", ⟨"make/missing-required-target", requiredTargetsCheck⟩⟩

/-- The `SuperfolousSpaceInCall` class of stock/make.py — defined by the
module but registered in no pack. -/
def SuperfolousSpaceInCall : PatternClass :=
  ⟨"make/superfluous-space-in-call", ⟨"make/superfluous-space-in-call", superfolousSpaceInCallCheck⟩⟩

/-- `general.patterns` (general.py lines 128-130): the set `{TrailingWhitespace}`. -/
def generalPatterns : List PatternClass :=
  [TrailingWhitespace]

/-- `make.patterns` (make.py line 166): the set `{RequiredTargets}`. -/
def makePatterns : List PatternClass :=
  [RequiredTargets]

/-- `_find_patterns` (__main__.py lines 41-42): the union
`general.patterns | make.patterns`.  The two singleton sets are disjoint,
so the union holds exactly these two classes; a Python set iterates in an
unspecified order, which this list fixes, and no theorem depends on it. -/
def findPatterns : List PatternClass :=
  generalPatterns ++ makePatterns

/-- `_find_enabled_patterns` (__main__.py lines 45-52): walk the merged
registry, instantiate and validate each class whose id occurs in `enable`,
and silently skip the rest (requested ids matching no class are never
looked at). -/
def findEnabledPatterns (enable : List String) : Except PyErr (List Pattern) :=
  findPatterns.foldlM
    (fun acc c =>
      if enable.contains c.id then do
        let pattern_instance := c.instantiate
        pattern_instance.validate
        pure (acc ++ [pattern_instance])
      else
        pure acc)
    []

/-- The content written by one fix application (__main__.py lines 35-38):
the target file's current lines with the 0-indexed slice from `line - 1` of
length `len(before)` replaced by the `after` lines, joined back into one
string. -/
def fixApplyContent (text : String) (line : Nat) (before after : List String) : String :=
  String.join (pySliceAssign (pySplitlines text) (line - 1) (line - 1 + before.length) after)

/-- The `while True` loop of `_fix` (__main__.py lines 24-38) for one
pattern, with fuel making non-termination observable (`none` = the loop is
still running when the fuel is exhausted): re-run `check` on the (never
refreshed) project; stop on an empty report; take the first violation;
`continue` if its `after` is `None`; otherwise re-read the target file from
disk, splice, write back, and loop. -/
def fixLoop : Nat → Project → FS → Pattern → Option (FS × Option PyErr)
  | 0, _, _, _ => none
  | fuel + 1, project, fs, pattern =>
    match pattern.check project with
    | Except.error e => some (fs, some e)
    | Except.ok [] => some (fs, none)
    | Except.ok (violation :: _) =>
      match violation.after with
      | none => fixLoop fuel project fs pattern
      | some a =>
        match fsRead fs violation.location.file_path with
        | none => some (fs, some PyErr.ioError)
        | some text =>
          match violation.before with
          | none => some (fs, some PyErr.typeError)
          | some b =>
            fixLoop fuel project
              (fsWrite fs violation.location.file_path
                (fixApplyContent text violation.location.line b a))
              pattern

/-- `_fix` (__main__.py lines 22-38): run the per-pattern loop for each
enabled pattern in order, threading the file system; an exception aborts
the remaining patterns, fuel exhaustion of any loop is `none`. -/
def fixPatterns : Nat → Project → FS → List Pattern → Option (FS × Option PyErr)
  | _, _, fs, [] => some (fs, none)
  | fuel, project, fs, pattern :: rest =>
    match fixLoop fuel project fs pattern with
    | none => none
    | some (fs2, some e) => some (fs2, some e)
    | some (fs2, none) => fixPatterns fuel project fs2 rest

/-- The `fix` CLI command (__main__.py lines 85-93): resolve the enabled
patterns, build the project by reading `filespec` once, and run `_fix`. -/
def fixCommand (fuel : Nat) (fs : FS) (filespec : String) (enable : List String) :
    Option (FS × Option PyErr) :=
  match findEnabledPatterns enable with
  | Except.error e => some (fs, some e)
  | Except.ok enabled_patterns =>
    match Project.from_file_path fs filespec with
    | Except.error e => some (fs, some e)
    | Except.ok project => fixPatterns fuel project fs enabled_patterns

/-- The violation-collection loop of the `check` CLI command (__main__.py
lines 69-72): a fresh project is built from `filespec` for each enabled
pattern and the reported violations are concatenated. -/
def checkCommandViolations (fs : FS) (filespec : String) (enable : List String) :
    Except PyErr (List Violation) := do
  let enabled_patterns ← findEnabledPatterns enable
  enabled_patterns.foldlM
    (fun acc pattern => do
      let project ← Project.from_file_path fs filespec
      let vs ← pattern.check project
      pure (acc ++ vs))
    []

/-- Clamping the take index at the list length is invisible. -/
theorem list_take_min {α : Type} (l : List α) (i : Nat) :
    l.take (min i l.length) = l.take i := by
  rcases Nat.le_total i l.length with h | h
  · rw [Nat.min_eq_left h]
  · rw [Nat.min_eq_right h, List.take_length, List.take_of_length_le h]

/-- Clamping the drop index at the list length is invisible. -/
theorem list_drop_min {α : Type} (l : List α) (j : Nat) :
    l.drop (min j l.length) = l.drop j := by
  rcases Nat.le_total j l.length with h | h
  · rw [Nat.min_eq_left h]
  · rw [Nat.min_eq_right h, List.drop_length, List.drop_eq_nil_of_le h]

/-- For a non-reversed slice, Python's slice assignment is plain
take/replacement/drop. -/
theorem pySliceAssign_eq_take_append_drop {α : Type} (l : List α) (i j : Nat)
    (r : List α) (h : i ≤ j) :
    pySliceAssign l i j r = l.take i ++ r ++ l.drop j := by
  unfold pySliceAssign
  have hmax : max (min j l.length) (min i l.length) = min j l.length := by omega
  rw [hmax, list_take_min, list_drop_min]

/-- A violation fixture as `SuperfolousSpaceInCall` emits for a multi-line
spaced argument (make.py lines 149-151): detected but with
`before = after = None`. -/
def nonfixableViolation : Violation :=
  ⟨["make/superfluous-space-in-call"], "function call includes superfluous space",
    ⟨"Makefile", 2, some 1⟩, none, none⟩

/-- A pattern whose `check` constantly reports the single non-fixable
violation above — the shape of report that step 4 of the spec's fix
algorithm is about. -/
def nonfixablePattern : Pattern :=
  ⟨"make/superfluous-space-in-call", fun _ => Except.ok [nonfixableViolation]⟩

/-- A fixable trailing-whitespace violation fixture. -/
def fixableViolation : Violation :=
  ⟨["trailing-whitespace"], "trailing whitespace", ⟨"my.py", 1, some 1⟩,
    some ["a \n"], some ["a\n"]⟩

/-- A pattern whose `check` constantly reports the fixable violation above. -/
def fixablePattern : Pattern :=
  ⟨"trailing-whitespace", fun _ => Except.ok [fixableViolation]⟩

/-- Claim C1: the claim says that when a pattern's check reports a first
violation with `after = None`, the fix engine skips it, keeps scanning and
still terminates, advancing to the next pattern.  The code does the
opposite: `continue` inside `while True` (__main__.py lines 24-34) re-runs
the same check against the unchanged project, re-selects the same
non-fixable first violation, and loops forever — for every fuel bound the
loop is still running, no fix is applied and the next pattern is never
reached. -/
theorem fixLoop_nonfixable_first_violation_never_terminates
    (pattern : Pattern) (project : Project) (fs : FS)
    (violation : Violation) (rest : List Violation)
    (hcheck : pattern.check project = Except.ok (violation :: rest))
    (hafter : violation.after = none) :
    ∀ fuel, fixLoop fuel project fs pattern = none := by
  intro fuel
  induction fuel with
  | zero => rfl
  | succ n ih => simp [fixLoop, hcheck, hafter, ih]

/-- Witness for C1 at a concrete pattern, project and file system. -/
theorem fixLoop_nonfixable_first_violation_never_terminates_witness :
    nonfixablePattern.check (Project.from_text "") = Except.ok [nonfixableViolation] ∧
    nonfixableViolation.after = none ∧
    fixLoop 5 (Project.from_text "") [("Makefile", "x\n")] nonfixablePattern = none :=
  ⟨rfl, rfl,
    fixLoop_nonfixable_first_violation_never_terminates nonfixablePattern
      (Project.from_text "") [("Makefile", "x\n")] nonfixableViolation [] rfl rfl 5⟩

/-- Claim C2: when the fix engine applies a fixable violation (`after`
present), the content written back for the target file is exactly the
file's current on-disk lines with the 0-indexed half-open slice
`[line-1, line-1+len(before))` replaced by the `after` lines, joined into
one string (`_fix`, __main__.py lines 35-38). -/
theorem fixLoop_applies_fix_as_slice_replacement
    (fuel : Nat) (project : Project) (fs : FS) (pattern : Pattern)
    (violation : Violation) (rest : List Violation) (b a : List String) (text : String)
    (hcheck : pattern.check project = Except.ok (violation :: rest))
    (hb : violation.before = some b) (ha : violation.after = some a)
    (hread : fsRead fs violation.location.file_path = some text)
    (_hline : 1 ≤ violation.location.line) :
    fixLoop (fuel + 1) project fs pattern =
      fixLoop fuel project
        (fsWrite fs violation.location.file_path
          (String.join ((pySplitlines text).take (violation.location.line - 1) ++ a ++
            (pySplitlines text).drop (violation.location.line - 1 + b.length))))
        pattern := by
  simp only [fixLoop, hcheck, ha, hread, hb]
  unfold fixApplyContent
  rw [pySliceAssign_eq_take_append_drop _ _ _ _ (Nat.le_add_right _ _)]

/-- Witness for C2: one engine step on a one-line file with trailing
whitespace writes the spliced content. -/
theorem fixLoop_applies_fix_as_slice_replacement_witness :
    fixablePattern.check (Project.from_text "a \n") = Except.ok [fixableViolation] ∧
    fixableViolation.before = some ["a \n"] ∧
    fixableViolation.after = some ["a\n"] ∧
    fsRead [("my.py", "a \n")] "my.py" = some "a \n" ∧
    1 ≤ fixableViolation.location.line ∧
    fixLoop 2 (Project.from_text "a \n") [("my.py", "a \n")] fixablePattern =
      fixLoop 1 (Project.from_text "a \n")
        (fsWrite [("my.py", "a \n")] "my.py"
          (String.join ((pySplitlines "a \n").take 0 ++ ["a\n"] ++
            (pySplitlines "a \n").drop 1)))
        fixablePattern :=
  ⟨rfl, rfl, rfl, rfl, by decide,
    fixLoop_applies_fix_as_slice_replacement 1 (Project.from_text "a \n")
      [("my.py", "a \n")] fixablePattern fixableViolation [] ["a \n"] ["a\n"] "a \n"
      rfl rfl rfl rfl (by decide)⟩

/-- Claim C3: the claim says `fix` with trailing-whitespace enabled rewrites
a file containing `"print('x') \n"` to `"print('x')\n"` and a second run is
a no-op.  On the code, `TrailingWhitespace.check` immediately evaluates
`project.get_files()`, an attribute `fend.Project` does not define, so the
first `fix` run raises `AttributeError` and leaves the file system
untouched — nothing is ever rewritten. -/
theorem fixCommand_trailing_whitespace_crashes_not_fixes (fuel : Nat) :
    fixCommand (fuel + 1) [("my.py", "print('x') \n")] "my.py" ["trailing-whitespace"] =
      some ([("my.py", "print('x') \n")], some PyErr.attributeError) := rfl

/-- Claim C4: the claim says `TrailingWhitespace.check` returns the empty
list on a project built from a text with no trailing whitespace; on the
code it instead raises `AttributeError` (the `project.get_files()` call at
general.py line 89 against `fend.Project`), here evaluated at the clean
text `"x\n"`. -/
theorem trailingWhitespaceCheck_raises_on_clean_text :
    trailingWhitespaceCheck (Project.from_text "x\n") = Except.error PyErr.attributeError := rfl

/-- Claim C5: the claim describes the per-line violations
`TrailingWhitespace.check` returns; on the code the method never reaches
the line loop, raising `AttributeError` at `project.get_files()`, here
evaluated at the violating text `"a \n"` for which the claim promises one
fixable violation. -/
theorem trailingWhitespaceCheck_raises_on_violating_text :
    trailingWhitespaceCheck (Project.from_text "a \n") = Except.error PyErr.attributeError := rfl

/-- Claim C6: the claim says `RequiredTargets.check` on a project holding
one empty Makefile returns five non-fixable violations; on the code the
method raises `AttributeError` before reporting anything — `fend.Project`
has no `get_files`, and even given files, `_Makefile` receives a
`pathlib.Path` and reads its non-existent `text` attribute. -/
theorem requiredTargetsCheck_raises_on_empty_makefile :
    requiredTargetsCheck (Project.from_text "") = Except.error PyErr.attributeError := rfl

/-- Claim C7: `SuperfolousSpaceInCall.check` on a project built from
`"x := $(call function, one)\n"` returns exactly one violation, tagged
`make/superfluous-space-in-call`, at line 1, column 22, whose fix replaces
the line with the argument's leading space removed. -/
theorem superfolousSpaceInCall_single_space_violation :
    superfolousSpaceInCallCheck (Project.from_text "x := $(call function, one)\n") =
      Except.ok [⟨["make/superfluous-space-in-call"],
        "function call includes superfluous space",
        ⟨"/tmp/fake/path", 1, some 22⟩,
        some ["x := $(call function, one)\n"],
        some ["x := $(call function,one)\n"]⟩] := rfl

/-- Counterexample to claim C8: constructing a `Violation` with `before`
present and `after = None` — exactly one of the two set — succeeds; the
dataclass `__post_init__` (fend/__init__.py lines 100-104) raises nothing. -/
theorem violation_with_only_before_constructs :
    mkViolation ["trailing-whitespace"] "trailing whitespace" ⟨"my.py", 1, some 1⟩
        (some ["x\n"]) none =
      Except.ok ⟨["trailing-whitespace"], "trailing whitespace", ⟨"my.py", 1, some 1⟩,
        some ["x\n"], none⟩ := rfl

/-- Claim C8 as amended: `Violation.__post_init__` validates only that each
line of a present `before`/`after` ends with a newline; a violation with
exactly one of the two set passes construction (in either orientation) and
nothing stops it from reaching the fix engine. -/
theorem violation_post_init_checks_newlines_only
    (tags : List String) (summary : String) (location : Location) (b : List String)
    (h : assertLinesEndNewline b = Except.ok ()) :
    mkViolation tags summary location (some b) none =
      Except.ok ⟨tags, summary, location, some b, none⟩ ∧
    mkViolation tags summary location none (some b) =
      Except.ok ⟨tags, summary, location, none, some b⟩ := by
  constructor <;> simp [mkViolation, h]

/-- Witness for the amended C8 at a concrete newline-terminated line. -/
theorem violation_post_init_checks_newlines_only_witness :
    assertLinesEndNewline ["x\n"] = Except.ok () ∧
    mkViolation ["t"] "s" ⟨"f", 1, some 1⟩ none (some ["x\n"]) =
      Except.ok ⟨["t"], "s", ⟨"f", 1, some 1⟩, none, some ["x\n"]⟩ :=
  ⟨rfl, (violation_post_init_checks_newlines_only ["t"] "s" ⟨"f", 1, some 1⟩ ["x\n"] rfl).2⟩

/-- Claim C9: looking up a list of enabled ids in the merged registry yields
exactly one freshly constructed, freshly validated instance per registered
class whose id is enabled (validation always succeeds, so no error
escapes), and ids not present in any pack are silently ignored — they
simply fail the membership test, contribute nothing and crash nothing. -/
theorem findEnabledPatterns_one_instance_per_known_id (enable : List String) :
    findEnabledPatterns enable =
      Except.ok ((findPatterns.filter (fun c => enable.contains c.id)).map
        PatternClass.instantiate) := by
  by_cases h1 : "trailing-whitespace" ∈ enable <;>
    by_cases h2 : "make/missing-required-target" ∈ enable <;>
      simp [findEnabledPatterns, findPatterns, generalPatterns, makePatterns,
        TrailingWhitespace, RequiredTargets, Pattern.validate, h1, h2] <;> rfl

/-- Claim C10: the merged registry holds exactly the `TrailingWhitespace`
and `RequiredTargets` classes — `SuperfolousSpaceInCall` is registered in
no pack — so enabling `"make/superfluous-space-in-call"` yields no
instance, the `check` command collects no violations, and the `fix` command
(once it has read the target file) changes nothing and reports no error. -/
theorem superfolousSpace_unregistered_check_and_fix_noop :
    findPatterns.map PatternClass.id = ["trailing-whitespace", "make/missing-required-target"] ∧
    findEnabledPatterns ["make/superfluous-space-in-call"] = Except.ok [] ∧
    (∀ fs filespec, checkCommandViolations fs filespec ["make/superfluous-space-in-call"] =
      Except.ok []) ∧
    (∀ fuel fs filespec text, fsRead fs filespec = some text →
      fixCommand fuel fs filespec ["make/superfluous-space-in-call"] = some (fs, none)) := by
  refine ⟨rfl, rfl, fun fs filespec => rfl, fun fuel fs filespec text h => ?_⟩
  have he : findEnabledPatterns ["make/superfluous-space-in-call"] = Except.ok [] := rfl
  simp [fixCommand, he, Project.from_file_path, h, fixPatterns]

/-- Witness for C10 at a concrete file system. -/
theorem superfolousSpace_unregistered_check_and_fix_noop_witness :
    fsRead [("Makefile", "x\n")] "Makefile" = some "x\n" ∧
    fixCommand 3 [("Makefile", "x\n")] "Makefile" ["make/superfluous-space-in-call"] =
      some ([("Makefile", "x\n")], none) :=
  ⟨rfl, superfolousSpace_unregistered_check_and_fix_noop.2.2.2 3 [("Makefile", "x\n")]
    "Makefile" "x\n" rfl⟩
